import Mathlib

/-!
Shallow embedding of `src/app.py` (interactive_map): a Streamlit script that
reads an uploaded CSV of per-country health metrics, fetches a world-boundary
GeoJSON, normalizes country names, left-merges the two tables, drops records
without geometry, styles the map by presence of the first metric column, and
places a chart-thumbnail marker at each valid polygon centroid.

Tabular data is modelled positionally: an uploaded frame has a `country`
column plus metric columns in upload order; a row stores the metric values in
that same order, a missing value (pandas NaN) being `none`.
-/

namespace InteractiveMap

/-! ### String normalization (app.py lines 66-67)

Python `str.strip()` removes whitespace from both ends; `str.capitalize()`
upper-cases the first character and lower-cases the rest. -/

/-- Python `str.strip()` on the character list: drop whitespace at both ends. -/
def stripChars (l : List Char) : List Char :=
  ((l.dropWhile Char.isWhitespace).reverse.dropWhile Char.isWhitespace).reverse

/-- Python `str.strip()`. -/
def strip (s : String) : String := ⟨stripChars s.data⟩

/-- Python `str.capitalize()` on the character list. -/
def capitalizeChars : List Char → List Char
  | [] => []
  | c :: cs => c.toUpper :: cs.map Char.toLower

/-- Python `str.capitalize()`. -/
def capitalize (s : String) : String := ⟨capitalizeChars s.data⟩

/-- Line 66: `user_df['country'] = user_df['country'].str.strip().str.capitalize()`. -/
def userNormalize (s : String) : String := capitalize (strip s)

/-- Line 67: `world_gdf['name'] = world_gdf['name'].str.strip().str.capitalize()`. -/
def worldNormalize (s : String) : String := capitalize (strip s)

/-! ### Data model -/

/-- The slice of a shapely geometry the script uses: validity, emptiness and
the centroid coordinates (`row['geometry'].is_valid`, `.is_empty`,
`.centroid.y`, `.centroid.x`). -/
structure Geom where
  is_valid : Bool
  is_empty : Bool
  centroid_y : Int
  centroid_x : Int
deriving Repr, DecidableEq

/-- One record of the fetched boundary GeoDataFrame: a `name` and an optional
`geometry` (a GeoJSON feature may carry a null geometry, pandas NaN). -/
structure WorldRow where
  name : String
  geometry : Option Geom
deriving Repr, DecidableEq

/-- One row of the uploaded CSV: the `country` cell and the metric cells in
column order; a missing cell is `none`. -/
structure UserRow where
  country : String
  values : List (Option Int)
deriving Repr, DecidableEq

/-- The uploaded frame `user_df`: its columns are `country` followed by
`metricCols` (line 79 computes `metric_cols` as all columns except
`country`), and its rows. -/
structure UserDf where
  metricCols : List String
  rows : List UserRow
deriving Repr, DecidableEq

/-- One record of `merged_gdf`: the boundary columns (`name`, `geometry`),
the right-side key column `country` (NaN when unmatched) and the metric
values in `metricCols` order (all NaN when unmatched). -/
structure MergedRow where
  name : String
  geometry : Option Geom
  country : Option String
  values : List (Option Int)
deriving Repr, DecidableEq

/-! ### Normalization and merge (app.py lines 66-72) -/

/-- Line 66 applied to the whole frame. -/
def normUser (user : UserDf) : UserDf :=
  ⟨user.metricCols, user.rows.map fun u => ⟨userNormalize u.country, u.values⟩⟩

/-- Line 67 applied to the whole frame. -/
def normWorld (world : List WorldRow) : List WorldRow :=
  world.map fun w => ⟨worldNormalize w.name, w.geometry⟩

/-- The rows a single boundary record contributes to
`world_gdf.merge(user_df, left_on='name', right_on='country', how='left')`:
one combined row per matching uploaded row, or a single row with all
right-side cells NaN when there is no match (`k` is the number of metric
columns). -/
def mergeRow (userRows : List UserRow) (k : Nat) (w : WorldRow) : List MergedRow :=
  let ms := userRows.filter fun u => u.country == w.name
  if ms.isEmpty then [⟨w.name, w.geometry, none, List.replicate k none⟩]
  else ms.map fun u => ⟨w.name, w.geometry, some u.country, u.values⟩

/-- Line 69: pandas left merge, left order preserved. -/
def mergeLeft (world : List WorldRow) (userRows : List UserRow) (k : Nat) :
    List MergedRow :=
  world.flatMap (mergeRow userRows k)

/-- Lines 66-72: normalize both key columns, left-merge, then
`merged_gdf.dropna(subset=['geometry'])`. -/
def mergedGdf (user : UserDf) (world : List WorldRow) : List MergedRow :=
  (mergeLeft (normWorld world) (normUser user).rows user.metricCols.length).filter
    fun r => r.geometry.isSome

/-! ### Color palette and styling (app.py lines 79-95) -/

/-- Line 80: the fixed six-entry palette. -/
def colors : List String :=
  ["seagreen", "royalblue", "orange", "pink", "lime", "darkblue"]

/-- Helper for `color_dict`: pairs the metric columns with `colors[i]`
starting at index `i`; `none` models the `IndexError` raised when the index
runs past the palette. -/
def colorDictAux : List String → Nat → Option (List (String × String))
  | [], _ => some []
  | m :: rest, i =>
    match colors[i]? with
    | none => none
    | some c => (colorDictAux rest (i + 1)).map ((m, c) :: ·)

/-- Line 81: `color_dict = {metric_cols[i]: colors[i] for i in range(len(metric_cols))}`,
as an association list in comprehension order; `none` is the uncaught
`IndexError` when there are more metric columns than palette entries. -/
def color_dict (metric_cols : List String) : Option (List (String × String)) :=
  colorDictAux metric_cols 0

/-- The first metric cell of a merged row, `x['properties'].get(metric_cols[0])`:
`none` when the cell is NaN (metric values are stored positionally, so the
column `metric_cols[0]` is position 0). -/
def firstMetric (r : MergedRow) : Option Int := r.values.head?.getD none

/-- Lines 87-93, the `style_function` fill color: red when the first metric
cell is not NaN, grey otherwise. The outer `Option` is the uncaught
`IndexError` of `metric_cols[0]` when there are no metric columns. -/
def style_fillColor (metric_cols : List String) (r : MergedRow) : Option String :=
  match metric_cols.head? with
  | none => none
  | some _ => some (if (firstMetric r).isSome then "red" else "grey")

/-! ### Per-country thumbnail markers (app.py lines 98-182) -/

/-- Line 177 guard: `row['geometry'].is_valid and not row['geometry'].is_empty`
(rows of `merged_gdf` always carry a geometry after the line-72 dropna; a
missing geometry fails the guard). -/
def geomGuard (r : MergedRow) : Bool :=
  match r.geometry with
  | some g => g.is_valid && !g.is_empty
  | none => false

/-- A `folium.Marker` with a `DivIcon` as built in lines 165-182: centroid
location, the fixed icon geometry, the tooltip, and the in-memory chart
content (the row's metric values and the per-column colors
`[color_dict.get(col) for col in metric_cols]`). -/
structure Marker where
  location : Int × Int
  icon_size : Nat × Nat
  icon_anchor : Nat × Nat
  tooltip : String
  chartValues : List (Option Int)
  chartColors : List (Option String)
deriving Repr, DecidableEq

/-- The marker built for one merged row (lines 104-182); the `none` geometry
branch is unreachable under the guard and yields a placeholder location. -/
def markerOf (metric_cols : List String) (cd : List (String × String))
    (r : MergedRow) : Marker :=
  let loc : Int × Int :=
    match r.geometry with
    | some g => (g.centroid_y, g.centroid_x)
    | none => (0, 0)
  ⟨loc, (60, 100), (30, 80), r.name, r.values,
    metric_cols.map fun c => (cd.find? fun p => p.1 == c).map Prod.snd⟩

/-- The loop of lines 98-182: for each merged row, build the chart and add a
marker only when the first metric cell is not NaN (line 102) and the
geometry guard passes (line 177). -/
def markersFor (metric_cols : List String) (cd : List (String × String))
    (merged : List MergedRow) : List Marker :=
  merged.flatMap fun r =>
    if (firstMetric r).isSome then
      if geomGuard r then [markerOf metric_cols cd r] else []
    else []

/-! ### Sample data, cache state and the whole flow (app.py lines 23-95) -/

/-- A plain dataframe as used for the sample data: named columns and rows of
a country cell plus integer metric cells. -/
structure SampleDf where
  columns : List String
  rows : List (String × List Int)
deriving Repr, DecidableEq

/-- Lines 26-35: the sample dataframe literal. -/
def sample_data : SampleDf :=
  ⟨["country", "Cardiovascular", "Child Health", "Respiratory",
    "Maternal Health", "Neonatal Health", "Other"],
   [("India", [10, 4, 3, 0, 0, 0]),
    ("Pakistan", [5, 6, 2, 0, 0, 0]),
    ("Nepal", [3, 2, 4, 0, 0, 0]),
    ("Bangladesh", [7, 5, 3, 0, 0, 0]),
    ("Uganda", [1, 1, 2, 0, 0, 0]),
    ("Ethiopia", [0, 1, 3, 0, 1, 0]),
    ("Kenya", [0, 3, 2, 0, 0, 0]),
    ("Tanzania", [0, 0, 4, 1, 1, 0]),
    ("DRC", [0, 0, 2, 0, 0, 0]),
    ("Rwanda", [0, 0, 0, 2, 1, 1])]⟩

/-- `sample_df.to_csv(index=False)`: header line then one comma-joined line
per row, each line newline-terminated. -/
def to_csv (df : SampleDf) : String :=
  String.intercalate "," df.columns ++ "\n" ++
    String.join (df.rows.map fun row =>
      String.intercalate "," (row.1 :: row.2.map toString) ++ "\n")

/-- The only mutable state the script keeps between runs: the
`@st.cache_data` memo of `get_sample_data` (lines 23-24). -/
structure AppState where
  sampleCache : Option SampleDf
deriving Repr, DecidableEq

/-- Lines 23-35 with the `st.cache_data` semantics: return the cached frame
when present, otherwise compute it and fill the cache. -/
def get_sample_data (s : AppState) : SampleDf × AppState :=
  match s.sampleCache with
  | some df => (df, s)
  | none => (sample_data, ⟨some sample_data⟩)

/-- Outcome of one run of the upload branch (lines 50-209). -/
inductive FlowResult where
  /-- Line 61-62: `st.error(...)` followed by `st.stop()` — the message is
  shown and nothing further runs. -/
  | errorHalt (msg : String)
  /-- An exception escaping to Streamlit's default error display. -/
  | unhandled (msg : String)
  /-- The map was rendered: the merged records, their fill colors, and the
  thumbnail markers. -/
  | rendered (merged : List MergedRow) (fills : List (Option String))
      (markers : List Marker)
deriving Repr, DecidableEq

/-- Lines 50-182 given the outcome of `pd.read_csv` and of
`gpd.read_file(world_geojson_url)`: a parse failure propagates unhandled,
a fetch failure hits the only `try/except` (lines 58-62) and halts, and a
palette overflow in `color_dict` (line 81) propagates unhandled. -/
def processUpload (parse : Except String UserDf)
    (fetch : Except String (List WorldRow)) : FlowResult :=
  match parse with
  | .error e => .unhandled e
  | .ok user =>
    match fetch with
    | .error e => .errorHalt ("Error loading GeoJSON data: " ++ e)
    | .ok world =>
      let merged := mergedGdf user world
      match color_dict user.metricCols with
      | none => .unhandled "IndexError: list index out of range"
      | some cd =>
        .rendered merged (merged.map (style_fillColor user.metricCols))
          (markersFor user.metricCols cd merged)

/-- One top-to-bottom run of the script on an upload event: produce the
sample CSV for the download button (lines 37-44), then process the upload;
the cache is the only state carried to the next run. -/
def runScript (s : AppState) (parse : Except String UserDf)
    (fetch : Except String (List WorldRow)) :
    (String × FlowResult) × AppState :=
  let (sample, s') := get_sample_data s
  ((to_csv sample, processUpload parse fetch), s')

/-! ### Concrete fixtures used to instantiate the theorems -/

/-- A valid, non-empty geometry. -/
def geomOk : Geom := ⟨true, false, 20, 77⟩

/-- An invalid geometry (fails the line-177 guard). -/
def geomBad : Geom := ⟨false, false, 0, 0⟩

/-- The metric columns of the sample CSV. -/
def sampleCols : List String :=
  ["Cardiovascular", "Child Health", "Respiratory",
   "Maternal Health", "Neonatal Health", "Other"]

/-- An upload holding the sample row `India,10,4,3,0,0,0`. -/
def userIndia : UserDf :=
  ⟨sampleCols, [⟨"India", [some 10, some 4, some 3, some 0, some 0, some 0]⟩]⟩

/-- A fetched dataset with boundaries `India` and `Atlantis`. -/
def world2 : List WorldRow := [⟨"India", some geomOk⟩, ⟨"Atlantis", some geomOk⟩]

/-- An upload with two rows for the same country name. -/
def userDup : UserDf := ⟨["m"], [⟨"India", [some 1]⟩, ⟨"India", [some 2]⟩]⟩

/-- A fetched dataset with the single boundary `India`. -/
def worldIndia : List WorldRow := [⟨"India", some geomOk⟩]

/-- An upload with seven metric columns, one more than the palette. -/
def user7 : UserDf := ⟨["c1", "c2", "c3", "c4", "c5", "c6", "c7"], []⟩

/-- A merged row whose first metric cell is NaN but whose second is present. -/
def rowNoData : MergedRow := ⟨"X", some geomOk, none, [none, some 5]⟩

/-- A merged row with data but an invalid geometry. -/
def rowBadGeom : MergedRow := ⟨"Y", some geomBad, some "Y", [some 1]⟩

/-- A merged row whose metric cells are present but all zero. -/
def rowZero : MergedRow := ⟨"Z", some geomOk, some "Z", [some 0, some 0]⟩

/-! ### Helper lemmas -/

theorem filter_country_eq_nil {l : List UserRow} {n : String}
    (h : ∀ u ∈ l, u.country ≠ n) : (l.filter fun u => u.country == n) = [] := by
  refine List.filter_eq_nil_iff.mpr fun u hu => ?_
  simpa using h u hu

theorem filter_country_length_le_one {l : List UserRow} {n : String}
    (h : (l.map fun u => u.country).Nodup) :
    (l.filter fun u => u.country == n).length ≤ 1 := by
  induction l with
  | nil => simp
  | cons u us ih =>
    rw [List.map_cons, List.nodup_cons] at h
    by_cases hc : (u.country == n) = true
    · have hn : u.country = n := by simpa using hc
      have hnil : (us.filter fun v => v.country == n) = [] := by
        refine filter_country_eq_nil fun v hv hvn => ?_
        have hmem : u.country ∈ us.map fun u => u.country := by
          rw [hn, ← hvn]
          exact List.mem_map_of_mem _ hv
        exact h.1 hmem
      simp [List.filter_cons, hc, hnil]
    · simp only [List.filter_cons, hc, if_neg]
      simpa using ih h.2

theorem mergeRow_eq_singleton {urs : List UserRow} {k : Nat}
    (h : (urs.map fun u => u.country).Nodup) (w : WorldRow) :
    ∃ r : MergedRow, mergeRow urs k w = [r] ∧
      r.name = w.name ∧ r.geometry = w.geometry := by
  rcases hms : urs.filter fun u => u.country == w.name with _ | ⟨u, rest⟩
  · exact ⟨⟨w.name, w.geometry, none, List.replicate k none⟩,
      by simp [mergeRow, hms], rfl, rfl⟩
  · have hlen := filter_country_length_le_one (n := w.name) h
    rw [hms] at hlen
    have hrest : rest = [] := by
      cases rest with
      | nil => rfl
      | cons v vs => simp at hlen
    subst hrest
    exact ⟨⟨w.name, w.geometry, some u.country, u.values⟩,
      by simp [mergeRow, hms], rfl, rfl⟩

theorem mergeLeft_filter_shape {urs : List UserRow} {k : Nat}
    (h : (urs.map fun u => u.country).Nodup) :
    ∀ world : List WorldRow,
      (((mergeLeft world urs k).filter fun r => r.geometry.isSome).map
          fun r => (r.name, r.geometry))
        = ((world.filter fun w => w.geometry.isSome).map
            fun w => (w.name, w.geometry)) := by
  intro world
  induction world with
  | nil => rfl
  | cons w ws ih =>
    obtain ⟨r, hr, hn, hg⟩ := mergeRow_eq_singleton (k := k) h w
    rw [mergeLeft, List.flatMap_cons, List.filter_append, List.map_append, hr]
    by_cases hge : w.geometry.isSome = true
    · have hrge : r.geometry.isSome = true := by rw [hg]; exact hge
      simp only [List.filter_cons, hrge, hge, List.filter_nil, if_true]
      simpa [hn, hg] using ih
    · have hrge : r.geometry.isSome = false := by
        rw [hg]; exact Bool.not_eq_true _ ▸ (by simpa using hge)
      simp only [List.filter_cons, hrge, hge, List.filter_nil]
      simpa using ih

theorem colorDictAux_cons (m : String) (rest : List String) (i : Nat) :
    colorDictAux (m :: rest) i
      = match colors[i]? with
        | none => none
        | some c => (colorDictAux rest (i + 1)).map ((m, c) :: ·) := rfl

theorem colorDictAux_eq_none :
    ∀ (cols : List String) (i : Nat), cols ≠ [] →
      colors.length < i + cols.length → colorDictAux cols i = none := by
  intro cols
  induction cols with
  | nil => intro i hne; exact fun _ => absurd rfl hne
  | cons m rest ih =>
    intro i _ hlt
    rcases hci : colors[i]? with _ | c
    · rw [colorDictAux_cons, hci]
    · have hi : i < colors.length := by
        by_contra hge
        rw [List.getElem?_eq_none (Nat.le_of_not_lt hge)] at hci
        exact Option.noConfusion hci
      cases rest with
      | nil => simp only [List.length_cons, List.length_nil] at hlt; omega
      | cons m2 rest2 =>
        have hrec : colorDictAux (m2 :: rest2) (i + 1) = none := by
          refine ih (i + 1) (by simp) ?_
          simp only [List.length_cons] at hlt ⊢
          omega
        rw [colorDictAux_cons, hci, hrec]
        rfl

/-! ### Claim theorems -/

/-- C3: the name used for joining is the original name with surrounding
whitespace stripped and then capitalized, and the very same normalization is
applied to the uploaded `country` column (line 66) and to the boundary `name`
column (line 67). -/
theorem c3_normalization :
    (∀ s : String, userNormalize s = capitalize (strip s)) ∧
    (∀ s : String, worldNormalize s = capitalize (strip s)) ∧
    (∀ user : UserDf, ((normUser user).rows.map fun u => u.country)
        = user.rows.map fun u => capitalize (strip u.country)) ∧
    (∀ world : List WorldRow, ((normWorld world).map fun w => w.name)
        = world.map fun w => capitalize (strip w.name)) := by
  refine ⟨fun s => rfl, fun s => rfl, fun user => ?_, fun world => ?_⟩
  · simp [normUser, userNormalize]
  · simp [normWorld, worldNormalize]

/-- C4: membership in the final joined set `mergedGdf` is membership in the
left-merge result restricted exactly to records whose geometry is present:
records lacking geometry are dropped, records lacking metric values are kept,
and nothing else is removed. -/
theorem c4_geometry_dropna (user : UserDf) (world : List WorldRow)
    (r : MergedRow) :
    r ∈ mergedGdf user world ↔
      r ∈ mergeLeft (normWorld world) (normUser user).rows
          user.metricCols.length
        ∧ r.geometry.isSome = true := by
  simp [mergedGdf, List.mem_filter]

/-- C2: the fill color depends only on presence of the first metric cell —
any row with a present first metric (zero included) is red, any row with a
missing first metric is grey; in particular the sample row `India,10,4,3,0,0,0`
merged against boundaries `India` and `Atlantis` yields red for India and
grey for the unmatched Atlantis. -/
theorem c2_fill_color :
    (∀ (cols : List String) (r : MergedRow), cols ≠ [] →
        (firstMetric r).isSome = true → style_fillColor cols r = some "red") ∧
    (∀ (cols : List String) (r : MergedRow), cols ≠ [] →
        firstMetric r = none → style_fillColor cols r = some "grey") ∧
    ((mergedGdf userIndia world2).map
        fun r => (r.name, style_fillColor userIndia.metricCols r))
      = [("India", some "red"), ("Atlantis", some "grey")] := by
  refine ⟨?_, ?_, by decide⟩
  · intro cols r hc hm
    cases cols with
    | nil => exact absurd rfl hc
    | cons c cs => simp [style_fillColor, hm]
  · intro cols r hc hm
    cases cols with
    | nil => exact absurd rfl hc
    | cons c cs => simp [style_fillColor, hm]

/-- C2 witness: an all-zero-but-present row is red just like a nonzero one. -/
theorem c2_fill_color_witness :
    style_fillColor ["m1", "m2"] rowZero = some "red" :=
  c2_fill_color.1 ["m1", "m2"] rowZero (by decide) (by decide)

/-- C5: an upload with more metric columns than the six palette entries makes
`color_dict` fail with an index error, and the whole flow then surfaces it as
an unhandled exception instead of silently truncating. -/
theorem c5_palette_overflow (user : UserDf) (world : List WorldRow)
    (h : colors.length < user.metricCols.length) :
    color_dict user.metricCols = none ∧
    processUpload (.ok user) (.ok world)
      = .unhandled "IndexError: list index out of range" := by
  have hne : user.metricCols ≠ [] := by
    intro hnil
    rw [hnil] at h
    simp at h
  have hnone : color_dict user.metricCols = none := by
    refine colorDictAux_eq_none user.metricCols 0 hne ?_
    simpa using h
  exact ⟨hnone, by simp [processUpload, hnone]⟩

/-- C5 witness: seven metric columns overflow the six-color palette. -/
theorem c5_palette_overflow_witness :
    color_dict user7.metricCols = none ∧
    processUpload (.ok user7) (.ok worldIndia)
      = .unhandled "IndexError: list index out of range" :=
  c5_palette_overflow user7 worldIndia (by decide)

/-- C6: a boundary-fetch failure is the one checked failure path — it yields
the user-visible message and halts the flow — while an upload-parse failure
and a palette overflow both propagate as unhandled exceptions. -/
theorem c6_error_handling :
    (∀ (user : UserDf) (e : String),
        processUpload (.ok user) (.error e)
          = .errorHalt ("Error loading GeoJSON data: " ++ e)) ∧
    (∀ (e : String) (fetch : Except String (List WorldRow)),
        processUpload (.error e) fetch = .unhandled e) ∧
    (∀ (user : UserDf) (world : List WorldRow),
        colors.length < user.metricCols.length →
        processUpload (.ok user) (.ok world)
          = .unhandled "IndexError: list index out of range") := by
  refine ⟨fun user e => rfl, fun e fetch => rfl, fun user world h => ?_⟩
  have hne : user.metricCols ≠ [] := by
    intro hnil
    rw [hnil] at h
    simp at h
  have hnone : color_dict user.metricCols = none := by
    refine colorDictAux_eq_none user.metricCols 0 hne ?_
    simpa using h
  simp [processUpload, hnone]

/-- C6 witness: fetch failure halts with the message; a palette overflow is
unhandled. -/
theorem c6_error_handling_witness :
    processUpload (.ok user7) (.ok worldIndia)
      = .unhandled "IndexError: list index out of range" :=
  c6_error_handling.2.2 user7 worldIndia (by decide)

/-- C7: one run of the script is a pure function of the upload and the
fetched boundary data — running it a second time from the state the first
run left behind gives the identical output (sample CSV and joined result),
and the flow result does not depend on the cache state at all. -/
theorem c7_rerun_deterministic (s : AppState) (parse : Except String UserDf)
    (fetch : Except String (List WorldRow)) :
    (runScript ((runScript s parse fetch).2) parse fetch).1
        = (runScript s parse fetch).1 ∧
    (∀ s2 : AppState, (runScript s2 parse fetch).1.2
        = (runScript s parse fetch).1.2) := by
  constructor
  · rcases s with ⟨_ | df⟩ <;> rfl
  · intro s2
    rcases s with ⟨_ | df⟩ <;> rcases s2 with ⟨_ | df2⟩ <;> rfl

/-- C9: the sample data offered for download has the fixed schema of a
`country` column followed by exactly the six named metric columns, and an
unchanged or freshly filled cache serves the very same CSV on every run. -/
theorem c9_sample_schema (s : AppState)
    (h : s.sampleCache = none ∨ s.sampleCache = some sample_data) :
    (get_sample_data s).1.columns
        = ["country", "Cardiovascular", "Child Health", "Respiratory",
           "Maternal Health", "Neonatal Health", "Other"] ∧
    ((get_sample_data s).1.columns.filter fun c => !(c == "country")).length
        = 6 ∧
    (∀ (parse : Except String UserDf) (fetch : Except String (List WorldRow)),
        (runScript s parse fetch).1.1 = to_csv sample_data) := by
  rcases h with h | h
  · rcases s with ⟨c⟩
    cases h
    exact ⟨rfl, rfl, fun parse fetch => rfl⟩
  · rcases s with ⟨c⟩
    cases h
    exact ⟨rfl, rfl, fun parse fetch => rfl⟩

/-- C9 witness: the schema on a fresh (empty-cache) run. -/
theorem c9_sample_schema_witness :
    (get_sample_data ⟨none⟩).1.columns
      = ["country", "Cardiovascular", "Child Health", "Respiratory",
         "Maternal Health", "Neonatal Health", "Other"] :=
  (c9_sample_schema ⟨none⟩ (Or.inl rfl)).1

/-- C10: a per-row thumbnail marker exists exactly when the first metric cell
is present and the geometry guard passes; a row whose first metric cell is
NaN gets no marker no matter what the other metric cells hold. -/
theorem c10_thumbnail_first_metric :
    (∀ (cols : List String) (cd : List (String × String)) (r : MergedRow),
        markersFor cols cd [r] ≠ [] ↔
          ((firstMetric r).isSome = true ∧ geomGuard r = true)) ∧
    (∀ (cols : List String) (cd : List (String × String)) (r : MergedRow),
        firstMetric r = none → markersFor cols cd [r] = []) := by
  constructor
  · intro cols cd r
    by_cases h1 : (firstMetric r).isSome = true <;>
      by_cases h2 : geomGuard r = true <;>
        simp [markersFor, h1, h2]
  · intro cols cd r h
    simp [markersFor, h]

/-- C10 witness: a row with data in the second metric column but NaN in the
first gets no thumbnail marker. -/
theorem c10_thumbnail_first_metric_witness :
    markersFor ["m1", "m2"] [] [rowNoData] = [] :=
  c10_thumbnail_first_metric.2 ["m1", "m2"] [] rowNoData (by decide)

/-- C8: the marker loop produces exactly one marker per merged row passing
both the data check and the geometry guard; each marker sits at the row's
polygon centroid with the fixed 60x100 icon and carries the row's chart data
in memory; a row with data whose geometry fails the guard yields no marker
and no fallback. -/
theorem c8_markers (cols : List String) (cd : List (String × String))
    (merged : List MergedRow) :
    markersFor cols cd merged
        = ((merged.filter fun r => (firstMetric r).isSome && geomGuard r).map
            (markerOf cols cd)) ∧
    (∀ (r : MergedRow) (g : Geom), r.geometry = some g →
        (markerOf cols cd r).location = (g.centroid_y, g.centroid_x) ∧
        (markerOf cols cd r).icon_size = (60, 100) ∧
        (markerOf cols cd r).icon_anchor = (30, 80) ∧
        (markerOf cols cd r).chartValues = r.values ∧
        (markerOf cols cd r).tooltip = r.name) ∧
    (∀ r : MergedRow, (firstMetric r).isSome = true → geomGuard r = false →
        markersFor cols cd [r] = []) := by
  refine ⟨?_, ?_, ?_⟩
  · induction merged with
    | nil => rfl
    | cons r rs ih =>
      by_cases h1 : (firstMetric r).isSome = true <;>
        by_cases h2 : geomGuard r = true <;>
          simp only [markersFor, List.flatMap_cons, List.filter_cons, h1, h2,
            Bool.and_self, if_true, if_false, List.map_cons] <;>
          simp [h1, h2, markersFor] at ih ⊢ <;> exact ih
  · intro r g hg
    simp [markerOf, hg]
  · intro r h1 h2
    simp [markersFor, h1, h2]

/-- C8 witness: a row with data but invalid geometry gets no marker. -/
theorem c8_markers_witness : markersFor ["m"] [] [rowBadGeom] = [] :=
  (c8_markers ["m"] [] [rowBadGeom]).2.2 rowBadGeom (by decide) (by decide)

/-- C1 counterexample: with two uploaded rows for the same country the left
merge emits one output row per matching uploaded row, so the single boundary
record `India` (geometry present) appears twice in the joined output — the
at-most-once part of the claim fails as stated. -/
theorem c1_at_most_once_cex :
    ¬ (∀ (user : UserDf) (world : List WorldRow), ∀ w ∈ world,
        w.geometry.isSome = true →
        ((mergedGdf user world).countP
            fun r => r.name == worldNormalize w.name) ≤ 1) := by
  intro h
  exact absurd
    (h userDup worldIndia ⟨"India", some geomOk⟩ (by simp [worldIndia]) rfl)
    (by decide)

/-- C1 (amended): when the normalized uploaded country names are pairwise
distinct, the joined output has exactly one record per boundary record with
geometry present, in boundary order; and unconditionally a boundary record
with geometry but no matching uploaded row is kept, with the `country` cell
and every metric cell missing. -/
theorem c1_left_join (user : UserDf) (world : List WorldRow) :
    (((normUser user).rows.map fun u => u.country).Nodup →
        ((mergedGdf user world).map fun r => (r.name, r.geometry))
          = (((normWorld world).filter fun w => w.geometry.isSome).map
              fun w => (w.name, w.geometry))) ∧
    (∀ w ∈ world, w.geometry.isSome = true →
        (∀ u ∈ user.rows, userNormalize u.country ≠ worldNormalize w.name) →
        (⟨worldNormalize w.name, w.geometry, none,
            List.replicate user.metricCols.length none⟩ : MergedRow)
          ∈ mergedGdf user world) := by
  constructor
  · intro h
    exact mergeLeft_filter_shape h (normWorld world)
  · intro w hw hg hnm
    have hw'mem : (⟨worldNormalize w.name, w.geometry⟩ : WorldRow)
        ∈ normWorld world :=
      List.mem_map_of_mem
        (fun v : WorldRow => (⟨worldNormalize v.name, v.geometry⟩ : WorldRow)) hw
    have hfil : ((normUser user).rows.filter
        fun u => u.country == worldNormalize w.name) = [] := by
      refine filter_country_eq_nil ?_
      intro u hu
      rw [normUser] at hu
      obtain ⟨v, hv, rfl⟩ := List.mem_map.mp hu
      exact hnm v hv
    have hrow : mergeRow (normUser user).rows user.metricCols.length
        (⟨worldNormalize w.name, w.geometry⟩ : WorldRow)
        = [⟨worldNormalize w.name, w.geometry, none,
            List.replicate user.metricCols.length none⟩] := by
      simp [mergeRow, hfil]
    refine List.mem_filter.mpr ⟨?_, hg⟩
    refine List.mem_flatMap.mpr ⟨⟨worldNormalize w.name, w.geometry⟩, hw'mem, ?_⟩
    rw [hrow]
    exact List.mem_singleton.mpr rfl

/-- C1 witness: the sample row joined against boundaries `India` and
`Atlantis` yields exactly one output record per boundary. -/
theorem c1_left_join_witness :
    ((mergedGdf userIndia world2).map fun r => (r.name, r.geometry))
      = (((normWorld world2).filter fun w => w.geometry.isSome).map
          fun w => (w.name, w.geometry)) :=
  (c1_left_join userIndia world2).1 (by decide)

end InteractiveMap
